import Mathlib

/-
  Verification of the dioxus-feed repository.

  Shallow embedding of the pure logic of the feed application:
  * `Feed`        — src/components/feed.rs (item trimming, scroll lock,
                    scroll-position restoration, real-time polling)
  * `VirtualList` — src/components/virtual_list.rs (window calculation,
                    load triggers, top-load guard)
  * `Protocol`    — src/protocol/myprotocol.rs (asset protocol handler)
  * `Physics`     — the scroll-physics engine described by the design
                    document (no implementation is present in src/)

  Scroll coordinates are `f64` in the source; they are modelled as `ℚ`.
  Side effects (issued scroll commands, filesystem access) are made
  explicit as returned values and oracle parameters.
-/

namespace Feed

/-- `MAX_ITEMS` from feed.rs: maximum items to keep in memory. -/
def MAX_ITEMS : Nat := 500

/-- `ITEMS_PER_LOAD` from feed.rs: number of items to load at once. -/
def ITEMS_PER_LOAD : Nat := 3

/-- `ITEM_HEIGHT` from feed.rs: estimated item height in px. -/
def ITEM_HEIGHT : ℚ := 110

/-- `BOTTOM_THRESHOLD` from feed.rs: distance from bottom that triggers loading. -/
def BOTTOM_THRESHOLD : ℚ := 200

/-- `SCROLL_POSITION_TOLERANCE` from feed.rs. -/
def SCROLL_POSITION_TOLERANCE : ℚ := 1

/-- `MIN_SCROLL_OFFSET` from feed.rs: minimum scroll offset preventing a zero position. -/
def MIN_SCROLL_OFFSET : ℚ := 50

/-- Embedding of `trim_items_if_needed` (feed.rs lines 30–44).
`Vec::drain(a..b)` is `take a ++ drop b`. -/
def trim_items_if_needed (items : List String) : Except String (List String) :=
  if MAX_ITEMS < items.length then
    let excess := items.length - MAX_ITEMS
    let remove_start := MAX_ITEMS / 2
    if remove_start + excess ≤ items.length then
      .ok (items.take remove_start ++ items.drop (remove_start + excess))
    else
      .error "Invalid trim range calculated"
  else
    .ok items

/-- A scroll command `{x, y}` issued to the mounted element
(`element.scroll(PixelsVector2D::new(x, y), Instant)`). -/
structure ScrollCommand where
  x : ℚ
  y : ℚ
deriving DecidableEq

/-- Embedding of `handle_scroll_lock` (feed.rs lines 88–108).  The spawned
scroll call is modelled as the list of commands the call issues; the
`None`-element case is the `Err("Scroll element not available")` branch. -/
def handle_scroll_lock (current_scroll_top locked_position : ℚ)
    (scroll_element : Option Unit) : Except String (List ScrollCommand) :=
  if SCROLL_POSITION_TOLERANCE < |current_scroll_top - locked_position| then
    match scroll_element with
    | some _ => .ok [{ x := 0, y := locked_position }]
    | none => .error "Scroll element not available"
  else
    .ok []

/-- The corrective commands actually issued by a `handle_scroll_lock` call
(the `Err` branch issues none). -/
def issued_commands (r : Except String (List ScrollCommand)) : List ScrollCommand :=
  match r with
  | .ok cmds => cmds
  | .error _ => []

/-- The target-position computation of `restore_scroll_position`
(feed.rs lines 183–189), parameterized by the two constants it reads,
so that the scenarios of the specification can be stated. -/
def restore_target_position (items_per_load : Nat) (item_height : ℚ) : ℚ :=
  let calculated_offset := (items_per_load : ℚ) * item_height
  if calculated_offset < MIN_SCROLL_OFFSET then
    MIN_SCROLL_OFFSET
  else
    calculated_offset

/-- The synthetic item pushed by `use_real_time_polling` (feed.rs line 247). -/
def poll_item (n : Nat) : String := "New Item " ++ toString n

/-- One iteration of the polling loop in `use_real_time_polling`
(feed.rs lines 244–253): push one item, then trim.  `let _ = trim(...)`
leaves the vector untouched when trimming reports an error. -/
def poll_step (items : List String) : List String :=
  let new_items := items ++ [poll_item (items.length + 1)]
  match trim_items_if_needed new_items with
  | .ok trimmed => trimmed
  | .error _ => new_items

/-- The initial item buffer of the `Feed` component (feed.rs lines 261–267). -/
def seed_items : List String :=
  ["Item 1", "Item 2", "Item 3", "Item 4", "Item 5"]

end Feed

namespace VirtualList

/-- `ITEM_HEIGHT` from virtual_list.rs: height per item including padding. -/
def ITEM_HEIGHT : ℚ := 320

/-- `CONTAINER_HEIGHT` from virtual_list.rs: viewport height. -/
def CONTAINER_HEIGHT : ℚ := 600

/-- `BUFFER_SIZE` from virtual_list.rs: extra items rendered outside the viewport. -/
def BUFFER_SIZE : Nat := 5

/-- `LOAD_THRESHOLD` from virtual_list.rs: distance from an edge triggering a load. -/
def LOAD_THRESHOLD : ℚ := 200

/-- `ITEMS_PER_LOAD` from virtual_list.rs: items loaded at once. -/
def ITEMS_PER_LOAD : Nat := 5

/-- `visible_count` (virtual_list.rs line 99):
`(client_height / ITEM_HEIGHT).ceil() as usize`. -/
def visible_count (client_height : ℚ) : Nat :=
  ⌈client_height / ITEM_HEIGHT⌉₊

/-- `start_index` (virtual_list.rs line 102):
`((scroll_top / ITEM_HEIGHT) as usize).saturating_sub(BUFFER_SIZE)`;
for a nonnegative value the `as usize` cast is the floor. -/
def start_index (scroll_top : ℚ) : Nat :=
  ⌊scroll_top / ITEM_HEIGHT⌋₊ - BUFFER_SIZE

/-- `end_index` (virtual_list.rs line 103):
`(start_index + visible_count + BUFFER_SIZE * 2).min(total_items)`. -/
def end_index (scroll_top client_height : ℚ) (total_items : Nat) : Nat :=
  min (start_index scroll_top + visible_count client_height + BUFFER_SIZE * 2) total_items

/-- `total_height` (virtual_list.rs line 98). -/
def total_height (total_items : Nat) : ℚ :=
  (total_items : ℚ) * ITEM_HEIGHT

/-- Maximum scroll position of the container:
`max(0, totalContentHeight − viewportHeight)`. -/
def max_scroll (total_items : Nat) (client_height : ℚ) : ℚ :=
  max 0 (total_height total_items - client_height)

/-- State touched by the top loader of `VirtualList`. -/
structure VLState where
  is_loading_top : Bool
  items : List String
deriving DecidableEq

/-- The batch built by the spawned task of `load_more_top`
(virtual_list.rs lines 117–125); timestamps in the ids are abstracted away,
the content strings are kept. -/
def older_batch (current_len : Nat) : List String :=
  (List.range ITEMS_PER_LOAD).map
    (fun i => "Older content item " ++ toString (current_len + i + 1) ++ " - loaded from top")

/-- Synchronous part of `load_more_top` (virtual_list.rs lines 106–112):
an already-loading state makes the trigger return at once, otherwise the
loading flag is set before the asynchronous task is spawned. -/
def load_more_top (s : VLState) : VLState :=
  if s.is_loading_top then s
  else { s with is_loading_top := true }

/-- Completion of the spawned top-load task (virtual_list.rs lines 113–146):
prepend one batch (`new_items.extend(current_items)`) and clear the flag. -/
def complete_top_load (s : VLState) : VLState :=
  { is_loading_top := false, items := older_batch s.items.length ++ s.items }

/-- Scroll direction computed by `handle_scroll` (virtual_list.rs lines 197–204):
`1` = down, `-1` = up, `0` = none. -/
def scroll_direction (current_scroll_top previous_scroll : ℚ) : Int :=
  if previous_scroll < current_scroll_top then 1
  else if current_scroll_top < previous_scroll then -1
  else 0

/-- `distance_from_bottom` (virtual_list.rs line 219). -/
def distance_from_bottom (scroll_height scroll_top client_height : ℚ) : ℚ :=
  scroll_height - scroll_top - client_height

/-- The bottom-load trigger condition of `handle_scroll`
(virtual_list.rs line 220):
`distance_from_bottom <= LOAD_THRESHOLD && direction == 1 && !is_loading_bottom`. -/
def bottom_load_triggered (current_scroll_top current_scroll_height
    current_client_height previous_scroll : ℚ) (is_loading_bottom : Bool) : Bool :=
  decide (distance_from_bottom current_scroll_height current_scroll_top
      current_client_height ≤ LOAD_THRESHOLD)
    && decide (scroll_direction current_scroll_top previous_scroll = 1)
    && !is_loading_bottom

end VirtualList

namespace Protocol

/-- `MYPROTOCOL_PREFIX` from myprotocol.rs (renamed here). -/
def MYPROTOCOL_PFX : String := "/myprotocol/"

/-- `ALLOW_ALL_FILESYSTEM` from myprotocol.rs. -/
def ALLOW_ALL_FILESYSTEM : String := "*"

/-- `SUPPORTED_IMAGE_EXTENSIONS` from myprotocol.rs. -/
def SUPPORTED_IMAGE_EXTENSIONS : List String :=
  ["jpg", "jpeg", "png", "gif", "webp", "bmp", "svg", "ico", "tiff", "tif", "avif"]

/-- `ProtocolError` from myprotocol.rs. -/
inductive ProtocolError where
  | PathNotAllowed (path : String)
  | UnsupportedExtension (ext : String)
  | FileNotFound (path : String)
  | InvalidPath (path : String)
  | IoError (msg : String)
deriving DecidableEq

/-- A successful protocol response: body bytes plus the `Content-Type` header. -/
structure ProtocolResponse where
  content_type : String
  body : List Nat
deriving DecidableEq

/-- Outcome of opening and reading a file, the oracle for
`tokio::fs::File::open` / `read_to_end`. -/
inductive FileReadOutcome where
  | success (bytes : List Nat)
  | openFailed
  | readFailed (msg : String)

/-- Oracle for the ambient filesystem used by the handler: the working
directory, `Path::canonicalize` (`none` = error), file reads, and the
`mime_guess::from_path(..).first_or_octet_stream()` lookup. -/
structure FileSystemModel where
  current_dir : String
  canonicalize : String → Option String
  read_file : String → FileReadOutcome
  mime : String → String

/-- `extract_file_path` (myprotocol.rs lines 84–91). -/
def extract_file_path (decoded_path : String) : Except ProtocolError String :=
  if decoded_path.startsWith MYPROTOCOL_PFX then
    .ok (decoded_path.drop MYPROTOCOL_PFX.length)
  else
    .error (.InvalidPath ("Path does not start with " ++ MYPROTOCOL_PFX))

/-- Final component of a path, as `Path::file_name` sees it. -/
def path_file_name (p : String) : String :=
  (p.splitOn "/").getLastD ""

/-- Model of the Rust `Path::extension`: the part of the file name after the
last dot; `none` when there is no dot, or when the only dot is the leading
one of a hidden file. -/
def path_ext (p : String) : Option String :=
  match (path_file_name p).splitOn "." with
  | [] => none
  | [_] => none
  | "" :: [_] => none
  | parts => parts.getLast?

/-- `validate_file_extension` (myprotocol.rs lines 110–121). -/
def validate_file_extension (path : String) : Except ProtocolError Unit :=
  match path_ext path with
  | none => .error (.UnsupportedExtension "No extension found")
  | some e =>
    let lower := e.toLower
    if SUPPORTED_IMAGE_EXTENSIONS.contains lower then .ok ()
    else .error (.UnsupportedExtension lower)

/-- `Path::is_absolute` on the unix-style paths of the model. -/
def path_is_absolute (p : String) : Bool := p.startsWith "/"

/-- `current_dir().join(p)` for a relative `p`. -/
def join_path (base p : String) : String :=
  if path_is_absolute p then p else base ++ "/" ++ p

/-- `validate_directory_access` (myprotocol.rs lines 124–156); the loop over
allowed directories returns the canonical path on the first ancestor hit. -/
def validate_directory_access (fs : FileSystemModel) (path : String)
    (allowed_directories : List String) : Except ProtocolError String :=
  let abs_path := if path_is_absolute path then path else join_path fs.current_dir path
  match fs.canonicalize abs_path with
  | none => .error (.FileNotFound path)
  | some canonical_path =>
    let hit := allowed_directories.any (fun allowed_dir =>
      let allowed_path :=
        if path_is_absolute allowed_dir then allowed_dir
        else join_path fs.current_dir allowed_dir
      match fs.canonicalize allowed_path with
      | some canonical_allowed => canonical_path.startsWith canonical_allowed
      | none => false)
    if hit then .ok canonical_path
    else .error (.PathNotAllowed canonical_path)

/-- `validate_file_path` (myprotocol.rs lines 94–107). -/
def validate_file_path (fs : FileSystemModel) (file_path : String)
    (allowed_directories : List String) : Except ProtocolError String :=
  match validate_file_extension file_path with
  | .error e => .error e
  | .ok _ =>
    match allowed_directories with
    | [d] =>
      if d = ALLOW_ALL_FILESYSTEM then .ok file_path
      else validate_directory_access fs file_path allowed_directories
    | _ => validate_directory_access fs file_path allowed_directories

/-- `load_file_response` (myprotocol.rs lines 159–174). -/
def load_file_response (fs : FileSystemModel) (file_path : String) :
    Except ProtocolError ProtocolResponse :=
  match fs.read_file file_path with
  | .openFailed => .error (.FileNotFound file_path)
  | .readFailed msg => .error (.IoError msg)
  | .success bytes => .ok { content_type := fs.mime file_path, body := bytes }

/-- `handle_protocol_request` (myprotocol.rs lines 72–81); `url_decode`
abstracts the `urlencoding::decode` call, `none` being its error case. -/
def handle_protocol_request (fs : FileSystemModel)
    (url_decode : String → Option String) (path : String)
    (allowed_directories : List String) : Except ProtocolError ProtocolResponse :=
  match url_decode path with
  | none => .error (.InvalidPath path)
  | some decoded_path =>
    match extract_file_path decoded_path with
    | .error e => .error e
    | .ok file_path_str =>
      match validate_file_path fs file_path_str allowed_directories with
      | .error e => .error e
      | .ok validated_path => load_file_response fs validated_path

/-- `create_error_response` (myprotocol.rs lines 177–195), reduced to the
status code and message it puts in the response. -/
def create_error_response (e : ProtocolError) : Nat × String :=
  match e with
  | .FileNotFound _ => (404, "File not found")
  | .PathNotAllowed _ => (403, "Access denied")
  | .UnsupportedExtension _ => (415, "Unsupported media type")
  | .InvalidPath _ => (400, "Bad request")
  | .IoError _ => (500, "Internal server error")

end Protocol

namespace Physics

/-- Modelled from the spec: the `ScrollPhysicsEngine` configuration
(§4.3) — `FRICTION`, `MIN_VELOCITY`, `MAX_VELOCITY` and the scroll range;
no implementation of this component exists under src/, so the constants
stay parameters. -/
structure PhysicsParams where
  friction : ℚ
  minVelocity : ℚ
  maxVelocity : ℚ
  maxScroll : ℚ

/-- Modelled from the spec: the two engine states of §4.3. -/
inductive PhysicsMode where
  | atRest
  | moving
deriving DecidableEq

/-- Modelled from the spec: the scroll state `{position, velocity}` plus the
reported engine state. -/
structure PhysicsState where
  position : ℚ
  velocity : ℚ
  mode : PhysicsMode

/-- `clamp(x, lo, hi)`. -/
def clampQ (x lo hi : ℚ) : ℚ := min (max x lo) hi

/-- Modelled from the spec: one simulation tick of §4.3 with no new input —
if `|velocity| ≥ MIN_VELOCITY` the position integrates (clamped) and the
velocity decays by `FRICTION`; otherwise the velocity zeroes and the engine
goes `Moving → AtRest`. -/
def tick (P : PhysicsParams) (s : PhysicsState) : PhysicsState :=
  if P.minVelocity ≤ |s.velocity| then
    { position := clampQ (s.position + s.velocity) 0 P.maxScroll
      velocity := s.velocity * P.friction
      mode := .moving }
  else
    { position := s.position, velocity := 0, mode := .atRest }

end Physics

/-
  Helper lemmas (shared; no claim-level theorem below is used by another).
-/

theorem Feed.trim_eq_of_le (l : List String) (h : l.length ≤ Feed.MAX_ITEMS) :
    Feed.trim_items_if_needed l = .ok l := by
  unfold Feed.trim_items_if_needed
  rw [if_neg (by omega)]

theorem Feed.trim_eq_of_lt (l : List String) (h : Feed.MAX_ITEMS < l.length) :
    Feed.trim_items_if_needed l =
      .ok (l.take (Feed.MAX_ITEMS / 2) ++
        l.drop (Feed.MAX_ITEMS / 2 + (l.length - Feed.MAX_ITEMS))) := by
  unfold Feed.trim_items_if_needed
  rw [if_pos h, if_pos (by simp only [Feed.MAX_ITEMS] at h ⊢; omega)]

theorem Feed.trim_result_length (l : List String) (h : Feed.MAX_ITEMS < l.length) :
    (l.take (Feed.MAX_ITEMS / 2) ++
      l.drop (Feed.MAX_ITEMS / 2 + (l.length - Feed.MAX_ITEMS))).length
      = Feed.MAX_ITEMS := by
  simp only [List.length_append, List.length_take, List.length_drop]
  simp only [Feed.MAX_ITEMS] at h ⊢
  omega

theorem Feed.poll_step_length (l : List String) (h : l.length ≤ Feed.MAX_ITEMS) :
    (Feed.poll_step l).length = min (l.length + 1) Feed.MAX_ITEMS := by
  rcases Nat.lt_or_ge Feed.MAX_ITEMS (l.length + 1) with hgt | hle
  · have hlen : Feed.MAX_ITEMS < (l ++ [Feed.poll_item (l.length + 1)]).length := by
      simpa using hgt
    have ht := Feed.trim_eq_of_lt _ hlen
    have hres := Feed.trim_result_length (l ++ [Feed.poll_item (l.length + 1)]) hlen
    unfold Feed.poll_step
    simp only [ht, hres]
    omega
  · have hlen : (l ++ [Feed.poll_item (l.length + 1)]).length ≤ Feed.MAX_ITEMS := by
      simpa using hle
    have ht := Feed.trim_eq_of_le _ hlen
    unfold Feed.poll_step
    simp only [ht, List.length_append, List.length_cons, List.length_nil]
    omega

theorem Feed.poll_iter_length (N : Nat) (l : List String)
    (h : l.length ≤ Feed.MAX_ITEMS) :
    ((Feed.poll_step)^[N] l).length = min (l.length + N) Feed.MAX_ITEMS := by
  induction N generalizing l with
  | zero =>
    simp only [Function.iterate_zero_apply]
    omega
  | succ n ih =>
    rw [Function.iterate_succ_apply]
    have h1 := Feed.poll_step_length l h
    have h2 : (Feed.poll_step l).length ≤ Feed.MAX_ITEMS := by omega
    rw [ih _ h2, h1]
    omega

theorem Physics.tick_of_ge (P : Physics.PhysicsParams) (s : Physics.PhysicsState)
    (h : P.minVelocity ≤ |s.velocity|) :
    Physics.tick P s =
      { position := Physics.clampQ (s.position + s.velocity) 0 P.maxScroll
        velocity := s.velocity * P.friction
        mode := .moving } := by
  rw [Physics.tick, if_pos h]

theorem Physics.tick_of_lt (P : Physics.PhysicsParams) (s : Physics.PhysicsState)
    (h : ¬ P.minVelocity ≤ |s.velocity|) :
    Physics.tick P s = { position := s.position, velocity := 0, mode := .atRest } := by
  rw [Physics.tick, if_neg h]

theorem Physics.tick_velocity_le (P : Physics.PhysicsParams) (hf0 : 0 ≤ P.friction)
    (s : Physics.PhysicsState) (k : Nat) :
    |((Physics.tick P)^[k] s).velocity| ≤ |s.velocity| * P.friction ^ k := by
  induction k with
  | zero => simp
  | succ k ih =>
    rw [Function.iterate_succ_apply']
    rcases le_or_lt P.minVelocity |((Physics.tick P)^[k] s).velocity| with h | h
    · rw [Physics.tick_of_ge P _ h]
      calc |((Physics.tick P)^[k] s).velocity * P.friction|
          = |((Physics.tick P)^[k] s).velocity| * P.friction := by
            rw [abs_mul, abs_of_nonneg hf0]
        _ ≤ (|s.velocity| * P.friction ^ k) * P.friction :=
            mul_le_mul_of_nonneg_right ih hf0
        _ = |s.velocity| * P.friction ^ (k + 1) := by ring
    · rw [Physics.tick_of_lt P _ (not_le.mpr h)]
      simp only [abs_zero]
      positivity

/-
  Claim theorems.
-/

/-- Claim C1: for every scroll position `p` with `0 ≤ p ≤ maxScroll`
(`maxScroll = max(0, totalContentHeight − viewportHeight)`), the visible
range computed by `VirtualList` satisfies
`0 ≤ startIndex ≤ endIndex ≤ itemCount` and
`endIndex − startIndex ≤ visibleCount + 2·BUFFER_SIZE`. -/
theorem window_range_bounds (p ch : ℚ) (n : Nat) (_hp : 0 ≤ p) (hch : 0 ≤ ch)
    (hmax : p ≤ VirtualList.max_scroll n ch) :
    VirtualList.start_index p ≤ VirtualList.end_index p ch n ∧
    VirtualList.end_index p ch n ≤ n ∧
    VirtualList.end_index p ch n - VirtualList.start_index p ≤
      VirtualList.visible_count ch + 2 * VirtualList.BUFFER_SIZE := by
  have hI : (0 : ℚ) < VirtualList.ITEM_HEIGHT := by
    norm_num [VirtualList.ITEM_HEIGHT]
  have hpn : p ≤ (n : ℚ) * VirtualList.ITEM_HEIGHT := by
    have h1 : VirtualList.max_scroll n ch ≤ (n : ℚ) * VirtualList.ITEM_HEIGHT := by
      unfold VirtualList.max_scroll VirtualList.total_height
      apply max_le
      · positivity
      · linarith
    linarith
  have hfloor : ⌊p / VirtualList.ITEM_HEIGHT⌋₊ ≤ n := by
    have hdiv : p / VirtualList.ITEM_HEIGHT ≤ (n : ℚ) := by
      rw [div_le_iff₀ hI]
      exact hpn
    calc ⌊p / VirtualList.ITEM_HEIGHT⌋₊ ≤ ⌊(n : ℚ)⌋₊ := Nat.floor_mono hdiv
      _ = n := Nat.floor_natCast n
  have hstart_le_n : VirtualList.start_index p ≤ n :=
    le_trans (Nat.sub_le _ _) hfloor
  have hend_le : VirtualList.end_index p ch n ≤
      VirtualList.start_index p + VirtualList.visible_count ch +
        VirtualList.BUFFER_SIZE * 2 :=
    min_le_left _ _
  refine ⟨le_min (by omega) hstart_le_n, min_le_right _ _, by omega⟩

/-- Witness for C1 at a concrete input: `p = 400`, viewport `600`,
`10` items. -/
theorem window_range_bounds_witness :
    ((0 : ℚ) ≤ 400 ∧ (0 : ℚ) ≤ 600 ∧ (400 : ℚ) ≤ VirtualList.max_scroll 10 600) ∧
    (VirtualList.start_index 400 ≤ VirtualList.end_index 400 600 10 ∧
     VirtualList.end_index 400 600 10 ≤ 10 ∧
     VirtualList.end_index 400 600 10 - VirtualList.start_index 400 ≤
       VirtualList.visible_count 600 + 2 * VirtualList.BUFFER_SIZE) :=
  ⟨⟨by norm_num, by norm_num,
    by norm_num [VirtualList.max_scroll, VirtualList.total_height,
      VirtualList.ITEM_HEIGHT]⟩,
   window_range_bounds 400 600 10 (by norm_num) (by norm_num)
    (by norm_num [VirtualList.max_scroll, VirtualList.total_height,
      VirtualList.ITEM_HEIGHT])⟩

/-- Claim C3: after a top-load prepend, the restored target scroll position
is `max(ITEMS_PER_LOAD × ITEM_HEIGHT, MIN_SCROLL_OFFSET)`; a calculated
offset of `1 × 10 = 10 < 50` floors to `50`, and the constants of the code
`3 × 110` give `330`. -/
theorem restore_target_max :
    (∀ (ipl : Nat) (h : ℚ),
      Feed.restore_target_position ipl h =
        max ((ipl : ℚ) * h) Feed.MIN_SCROLL_OFFSET) ∧
    Feed.restore_target_position 1 10 = 50 ∧
    Feed.restore_target_position Feed.ITEMS_PER_LOAD Feed.ITEM_HEIGHT = 330 := by
  have key : ∀ (ipl : Nat) (h : ℚ),
      Feed.restore_target_position ipl h =
        max ((ipl : ℚ) * h) Feed.MIN_SCROLL_OFFSET := by
    intro ipl h
    simp only [Feed.restore_target_position]
    split_ifs with hc
    · exact (max_eq_right hc.le).symm
    · exact (max_eq_left (not_lt.mp hc)).symm
  refine ⟨key, ?_, ?_⟩
  · rw [key]
    norm_num [Feed.MIN_SCROLL_OFFSET]
  · rw [key]
    norm_num [Feed.MIN_SCROLL_OFFSET, Feed.ITEMS_PER_LOAD, Feed.ITEM_HEIGHT]

/-- Claim C5: when the buffer holds more than `MAX_ITEMS` items, trimming
removes exactly `length − MAX_ITEMS` items starting at index
`MAX_ITEMS / 2` and leaves exactly `MAX_ITEMS` items; otherwise it is a
no-op that returns the buffer unchanged. -/
theorem trim_middle_spec (l : List String) :
    (Feed.MAX_ITEMS < l.length →
      Feed.trim_items_if_needed l =
        .ok (l.take (Feed.MAX_ITEMS / 2) ++
          l.drop (Feed.MAX_ITEMS / 2 + (l.length - Feed.MAX_ITEMS))) ∧
      ∀ l', Feed.trim_items_if_needed l = .ok l' → l'.length = Feed.MAX_ITEMS) ∧
    (l.length ≤ Feed.MAX_ITEMS → Feed.trim_items_if_needed l = .ok l) := by
  constructor
  · intro h
    refine ⟨Feed.trim_eq_of_lt l h, ?_⟩
    intro l' hl'
    rw [Feed.trim_eq_of_lt l h] at hl'
    cases hl'
    exact Feed.trim_result_length l h
  · intro h
    exact Feed.trim_eq_of_le l h

/-- Witness for C5 on a buffer of `501` items: the trim drains down to
exactly `MAX_ITEMS` items from the middle. -/
theorem trim_middle_spec_witness :
    Feed.MAX_ITEMS < (List.replicate 501 "x").length ∧
    (Feed.trim_items_if_needed (List.replicate 501 "x") =
      .ok ((List.replicate 501 "x").take (Feed.MAX_ITEMS / 2) ++
        (List.replicate 501 "x").drop
          (Feed.MAX_ITEMS / 2 + ((List.replicate 501 "x").length - Feed.MAX_ITEMS))) ∧
     ∀ l', Feed.trim_items_if_needed (List.replicate 501 "x") = .ok l' →
       l'.length = Feed.MAX_ITEMS) :=
  ⟨by rw [List.length_replicate]; norm_num [Feed.MAX_ITEMS],
   (trim_middle_spec (List.replicate 501 "x")).1
     (by rw [List.length_replicate]; norm_num [Feed.MAX_ITEMS])⟩

/-- Claim C10: `trim_items_if_needed` returns `Ok` on every input; the
guarded drain is always in bounds, so the
"Invalid trim range calculated" branch is unreachable. -/
theorem trim_never_errors (l : List String) :
    (Feed.trim_items_if_needed l).isOk = true := by
  rcases Nat.lt_or_ge Feed.MAX_ITEMS l.length with h | h
  · rw [Feed.trim_eq_of_lt l h]
    rfl
  · rw [Feed.trim_eq_of_le l h]
    rfl

/-- Claim C2 counterexample: with the lock engaged at target `0`, an
observation at `10` deviates beyond the tolerance, yet when no scroll
element is mounted `handle_scroll_lock` issues no corrective command at
all (it returns the `Err` branch), so the observation does not cause
exactly one corrective command. -/
theorem scroll_lock_claim_counterexample :
    Feed.SCROLL_POSITION_TOLERANCE < |(10 : ℚ) - 0| ∧
    Feed.issued_commands (Feed.handle_scroll_lock 10 0 none) = [] ∧
    Feed.handle_scroll_lock 10 0 none = .error "Scroll element not available" := by
  refine ⟨by norm_num [Feed.SCROLL_POSITION_TOLERANCE], ?_, ?_⟩ <;>
    simp [Feed.handle_scroll_lock, Feed.issued_commands,
      Feed.SCROLL_POSITION_TOLERANCE, abs_of_nonneg]

/-- Claim C2 (amended): with the lock engaged at target `T`, an observation
at `p` with `|p − T|` beyond the tolerance causes exactly one corrective
command back to `T` when a scroll element is mounted (and none when it is
absent, per the counterexample); an observation within tolerance causes no
command for any element state. -/
theorem scroll_lock_correction (p t : ℚ) (u : Unit) :
    (Feed.SCROLL_POSITION_TOLERANCE < |p - t| →
      Feed.handle_scroll_lock p t (some u) = .ok [{ x := 0, y := t }]) ∧
    (|p - t| ≤ Feed.SCROLL_POSITION_TOLERANCE →
      ∀ elem : Option Unit, Feed.handle_scroll_lock p t elem = .ok []) := by
  constructor
  · intro h
    unfold Feed.handle_scroll_lock
    rw [if_pos h]
  · intro h elem
    unfold Feed.handle_scroll_lock
    rw [if_neg (not_lt.mpr h)]

/-- Witness for the amended C2: observation `10` against target `0` with a
mounted element issues exactly the one command `{x := 0, y := 0}`. -/
theorem scroll_lock_correction_witness :
    Feed.SCROLL_POSITION_TOLERANCE < |(10 : ℚ) - 0| ∧
    Feed.handle_scroll_lock 10 0 (some ()) = .ok [{ x := 0, y := 0 }] :=
  ⟨by norm_num [Feed.SCROLL_POSITION_TOLERANCE],
   (scroll_lock_correction 10 0 ()).1
     (by norm_num [Feed.SCROLL_POSITION_TOLERANCE])⟩

/-- Claim C4: a top-load trigger that arrives while the top edge is already
loading is a no-op; two triggers in immediate succession set the loading
flag once, and the single spawned completion prepends exactly
`ITEMS_PER_LOAD` items — never two batches and never a queued second
load. -/
theorem top_load_idempotent (s : VirtualList.VLState)
    (h : s.is_loading_top = false) :
    VirtualList.load_more_top (VirtualList.load_more_top s) =
      VirtualList.load_more_top s ∧
    (VirtualList.complete_top_load
        (VirtualList.load_more_top (VirtualList.load_more_top s))).items.length =
      s.items.length + VirtualList.ITEMS_PER_LOAD ∧
    (VirtualList.complete_top_load
        (VirtualList.load_more_top (VirtualList.load_more_top s))).items =
      VirtualList.older_batch s.items.length ++ s.items := by
  have h1 : VirtualList.load_more_top s = { s with is_loading_top := true } := by
    unfold VirtualList.load_more_top
    rw [if_neg (by simp [h])]
  have h2 : VirtualList.load_more_top { s with is_loading_top := true } =
      { s with is_loading_top := true } := by
    unfold VirtualList.load_more_top
    rw [if_pos rfl]
  rw [h1, h2]
  refine ⟨rfl, ?_, rfl⟩
  simp [VirtualList.complete_top_load, VirtualList.older_batch]
  omega

/-- Witness for C4 from an idle state holding one item. -/
theorem top_load_idempotent_witness :
    (VirtualList.VLState.mk false ["a"]).is_loading_top = false ∧
    (VirtualList.load_more_top
        (VirtualList.load_more_top (VirtualList.VLState.mk false ["a"])) =
      VirtualList.load_more_top (VirtualList.VLState.mk false ["a"]) ∧
    (VirtualList.complete_top_load
        (VirtualList.load_more_top
          (VirtualList.load_more_top (VirtualList.VLState.mk false ["a"])))).items.length =
      (VirtualList.VLState.mk false ["a"]).items.length + VirtualList.ITEMS_PER_LOAD ∧
    (VirtualList.complete_top_load
        (VirtualList.load_more_top
          (VirtualList.load_more_top (VirtualList.VLState.mk false ["a"])))).items =
      VirtualList.older_batch (VirtualList.VLState.mk false ["a"]).items.length ++
        (VirtualList.VLState.mk false ["a"]).items) :=
  ⟨rfl, top_load_idempotent (VirtualList.VLState.mk false ["a"]) rfl⟩

/-- Claim C6: the polling producer appends exactly one synthetic item per
interval and the capacity trim keeps the buffer bounded — starting from a
buffer of length `5`, after `N` intervals the length is
`min(5 + N, MAX_ITEMS)`, so more than `495` intervals pin it at exactly
`MAX_ITEMS = 500`. -/
theorem polling_bounded (N : Nat) (seed : List String) (h : seed.length = 5) :
    ((Feed.poll_step)^[N] seed).length = min (5 + N) Feed.MAX_ITEMS ∧
    (495 < N → ((Feed.poll_step)^[N] seed).length = Feed.MAX_ITEMS) := by
  have h5 : seed.length ≤ Feed.MAX_ITEMS := by
    rw [h]
    norm_num [Feed.MAX_ITEMS]
  have key := Feed.poll_iter_length N seed h5
  rw [h] at key
  refine ⟨by omega, fun hN => ?_⟩
  simp only [Feed.MAX_ITEMS] at key ⊢
  omega

/-- Witness for C6: the seed buffer of the `Feed` component has length `5`,
and three polling intervals grow it to `min(5 + 3, 500) = 8`. -/
theorem polling_bounded_witness :
    Feed.seed_items.length = 5 ∧
    (((Feed.poll_step)^[3] Feed.seed_items).length = min (5 + 3) Feed.MAX_ITEMS ∧
     (495 < 3 → ((Feed.poll_step)^[3] Feed.seed_items).length = Feed.MAX_ITEMS)) :=
  ⟨rfl, polling_bounded 3 Feed.seed_items rfl⟩

/-- Claim C7 counterexample: with `scrollHeight = 1100`,
`scrollPosition = 300`, `viewportHeight = 600` and a previous position of
`0` (direction DOWN, no load in flight), the distance from the bottom is
exactly `200` — not *below* the threshold — yet `handle_scroll` does
trigger a bottom-load, because the code compares with `<=`, not `<`. -/
theorem bottom_trigger_boundary_counterexample :
    VirtualList.bottom_load_triggered 300 1100 600 0 false = true ∧
    ¬ VirtualList.distance_from_bottom 1100 300 600 < VirtualList.LOAD_THRESHOLD := by
  constructor
  · simp [VirtualList.bottom_load_triggered, VirtualList.distance_from_bottom,
      VirtualList.scroll_direction, VirtualList.LOAD_THRESHOLD]
    norm_num
  · norm_num [VirtualList.distance_from_bottom, VirtualList.LOAD_THRESHOLD]

/-- Claim C7 (amended): a bottom-load is triggered by a scroll observation
only when the scroll direction is DOWN, the distance from the bottom
`scrollHeight − scrollPosition − viewportHeight` is at most (boundary
included) the threshold, and no bottom-load is in flight; in particular it
is never triggered on an observation whose direction is not DOWN. -/
theorem bottom_trigger_direction (st sh ch prev : ℚ) (b : Bool)
    (h : VirtualList.bottom_load_triggered st sh ch prev b = true) :
    VirtualList.scroll_direction st prev = 1 ∧
    VirtualList.distance_from_bottom sh st ch ≤ VirtualList.LOAD_THRESHOLD ∧
    b = false := by
  unfold VirtualList.bottom_load_triggered at h
  simp only [Bool.and_eq_true, Bool.not_eq_eq_eq_not, Bool.not_true,
    decide_eq_true_eq] at h
  obtain ⟨⟨h1, h2⟩, h3⟩ := h
  exact ⟨h2, h1, by simpa using h3⟩

/-- Witness for the amended C7 at a concrete triggering observation
(scrolling down to `300` with `scrollHeight = 1000`, viewport `600`). -/
theorem bottom_trigger_direction_witness :
    VirtualList.bottom_load_triggered 300 1000 600 0 false = true ∧
    (VirtualList.scroll_direction 300 0 = 1 ∧
     VirtualList.distance_from_bottom 1000 300 600 ≤ VirtualList.LOAD_THRESHOLD ∧
     false = false) :=
  ⟨by simp [VirtualList.bottom_load_triggered, VirtualList.distance_from_bottom,
      VirtualList.scroll_direction, VirtualList.LOAD_THRESHOLD]; norm_num,
   bottom_trigger_direction 300 1000 600 0 false
     (by simp [VirtualList.bottom_load_triggered, VirtualList.distance_from_bottom,
       VirtualList.scroll_direction, VirtualList.LOAD_THRESHOLD]; norm_num)⟩

/-- Claim C8: for every request locator, the protocol handler yields either
the file bytes with a content-type, or an error drawn from the five-case
`ProtocolError` taxonomy, each case mapped by `create_error_response` to
its distinct status — not-found 404, forbidden 403, unsupported-type 415,
bad-request 400, io-error 500; being a total function of the request and
the filesystem oracle, no other outcome (and no panic) is possible. -/
theorem protocol_outcome_partition (fs : Protocol.FileSystemModel)
    (url_decode : String → Option String) (path : String)
    (allowed_directories : List String) :
    ((∃ r, Protocol.handle_protocol_request fs url_decode path allowed_directories
        = .ok r) ∨
     (∃ e, Protocol.handle_protocol_request fs url_decode path allowed_directories
        = .error e ∧
       (Protocol.create_error_response e).1 ∈ ([404, 403, 415, 400, 500] : List Nat))) ∧
    (∀ s, Protocol.create_error_response (.FileNotFound s) = (404, "File not found")) ∧
    (∀ s, Protocol.create_error_response (.PathNotAllowed s) = (403, "Access denied")) ∧
    (∀ s, Protocol.create_error_response (.UnsupportedExtension s) =
      (415, "Unsupported media type")) ∧
    (∀ s, Protocol.create_error_response (.InvalidPath s) = (400, "Bad request")) ∧
    (∀ s, Protocol.create_error_response (.IoError s) = (500, "Internal server error")) := by
  refine ⟨?_, fun _ => rfl, fun _ => rfl, fun _ => rfl, fun _ => rfl, fun _ => rfl⟩
  cases hr : Protocol.handle_protocol_request fs url_decode path allowed_directories with
  | ok r => exact Or.inl ⟨r, rfl⟩
  | error e =>
    refine Or.inr ⟨e, rfl, ?_⟩
    cases e <;> simp [Protocol.create_error_response]

/-- Claim C9 (the physics engine exists only in the design document; the
model follows its §4.3 wording): for any configuration with
`0 < FRICTION < 1`, positive `MIN_VELOCITY` and positive `MAX_VELOCITY`,
there is a tick bound `N` such that from any state with
`|velocity| ≤ MAX_VELOCITY`, every tick count `k ≥ N` of friction-only
updates has driven the velocity to `0` and the engine reports `AtRest`. -/
theorem momentum_decay (P : Physics.PhysicsParams) (hf0 : 0 < P.friction)
    (hf1 : P.friction < 1) (hmin : 0 < P.minVelocity) (hmax : 0 < P.maxVelocity) :
    ∃ N, ∀ s : Physics.PhysicsState, |s.velocity| ≤ P.maxVelocity →
      ∀ k, N ≤ k →
        ((Physics.tick P)^[k] s).velocity = 0 ∧
        ((Physics.tick P)^[k] s).mode = Physics.PhysicsMode.atRest := by
  obtain ⟨n, hn⟩ := exists_pow_lt_of_lt_one (div_pos hmin hmax) hf1
  have hfn : P.maxVelocity * P.friction ^ n < P.minVelocity := by
    rw [lt_div_iff₀ hmax] at hn
    linarith
  refine ⟨n + 1, fun s hs k hk => ?_⟩
  obtain ⟨m, rfl, hm⟩ : ∃ m, k = m + 1 ∧ n ≤ m := ⟨k - 1, by omega, by omega⟩
  have hvm : |((Physics.tick P)^[m] s).velocity| ≤ |s.velocity| * P.friction ^ m :=
    Physics.tick_velocity_le P hf0.le s m
  have hpow : P.friction ^ m ≤ P.friction ^ n :=
    pow_le_pow_of_le_one hf0.le hf1.le hm
  have hsmall : |((Physics.tick P)^[m] s).velocity| < P.minVelocity := by
    have hb1 : |s.velocity| * P.friction ^ m ≤ P.maxVelocity * P.friction ^ m :=
      mul_le_mul_of_nonneg_right hs (by positivity)
    have hb2 : P.maxVelocity * P.friction ^ m ≤ P.maxVelocity * P.friction ^ n :=
      mul_le_mul_of_nonneg_left hpow hmax.le
    linarith
  rw [Function.iterate_succ_apply', Physics.tick_of_lt P _ (not_le.mpr hsmall)]
  exact ⟨rfl, rfl⟩

/-- Witness for C9 at the concrete configuration
`FRICTION = 1/2`, `MIN_VELOCITY = 1`, `MAX_VELOCITY = 100`,
`maxScroll = 1000`. -/
theorem momentum_decay_witness :
    ∃ N, ∀ s : Physics.PhysicsState,
      |s.velocity| ≤ (Physics.PhysicsParams.mk (1/2) 1 100 1000).maxVelocity →
      ∀ k, N ≤ k →
        ((Physics.tick (Physics.PhysicsParams.mk (1/2) 1 100 1000))^[k] s).velocity = 0 ∧
        ((Physics.tick (Physics.PhysicsParams.mk (1/2) 1 100 1000))^[k] s).mode =
          Physics.PhysicsMode.atRest :=
  momentum_decay (Physics.PhysicsParams.mk (1/2) 1 100 1000)
    (by norm_num) (by norm_num) (by norm_num) (by norm_num)
